import Mathlib

/-
Verification of the weather MCP server (src/weather.py) against its
natural-language specification.  The Python handlers are shallowly embedded
as pure Lean functions; Python dictionaries of JSON-ish argument values
become association lists over an inductive `Value` type, raising an
exception becomes returning `Except.error` with the exception's string
rendering, and the protocol layer's wrapping of handler outcomes into
protocol responses is modelled by the `Response` type.
-/

namespace Weather

/-- A JSON-ish Python value as it appears in tool-call arguments.  Only
strings and integers occur in the schemas and handlers of weather.py. -/
inductive Value where
  | str (s : String)
  | int (n : Int)
deriving DecidableEq

/-- How a value renders inside a Python f-string: a `str` renders as itself,
an `int` in decimal. -/
def Value.render : Value → String
  | .str s => s
  | .int n => toString n

/-- Embeds `mcp.types.TextContent(type="text", text=...)`. -/
structure TextContent where
  type : String
  text : String
deriving DecidableEq

/-- Embeds `mcp.types.Resource` as constructed in handle_list_resources. -/
structure Resource where
  uri : String
  name : String
  description : String
  mimeType : String
deriving DecidableEq

/-- One property entry of a JSON-schema `properties` object, as written in
the `inputSchema` literals of handle_list_tools (weather.py lines 76-118). -/
structure PropSchema where
  type : String
  enum : Option (List String)
  minimum : Option Int
  maximum : Option Int
  default : Option Value
  description : String
deriving DecidableEq

/-- The `inputSchema` object of a Tool declaration. -/
structure InputSchema where
  type : String
  properties : List (String × PropSchema)
  required : List String
deriving DecidableEq

/-- Embeds `mcp.types.Tool` as constructed in handle_list_tools. -/
structure Tool where
  name : String
  description : String
  inputSchema : InputSchema
deriving DecidableEq

/-- Dictionary lookup `d.get(k)` on an arguments mapping, embedded as
first-match lookup on an association list. -/
def lookupArg : List (String × Value) → String → Option Value
  | [], _ => none
  | (k, v) :: rest, key => if k = key then some v else lookupArg rest key

/-- Python `arguments.get(key, dflt)`: the stored value when the key is
present, the default otherwise. -/
def getArg (args : List (String × Value)) (key : String) (dflt : Value) : Value :=
  (lookupArg args key).getD dflt

/-- Embeds handle_list_resources (weather.py lines 41-57): a constant
enumeration of the two weather resources, in registration order. -/
def handle_list_resources : Unit → List Resource := fun _ =>
  [ Resource.mk "weather://current" "Current Weather"
      "Get current weather information for a location" "application/json"
  , Resource.mk "weather://forecast" "Weather Forecast"
      "Get weather forecast for a location" "application/json" ]

/-- Embeds handle_read_resource (weather.py lines 59-67).  The Python
function returns a string for the two registered uris and raises a
ValueError whose message is "Unknown resource: " followed by the uri
otherwise; raising is embedded as `Except.error` carrying the message. -/
def handle_read_resource (uri : String) : Except String String :=
  if uri = "weather://current" then
    .ok "Current weather data resource - use get_current_weather tool"
  else if uri = "weather://forecast" then
    .ok "Weather forecast data resource - use get_weather_forecast tool"
  else
    .error ("Unknown resource: " ++ uri)

/-- The inputSchema literal of the get_current_weather Tool
(weather.py lines 76-91). -/
def currentWeatherSchema : InputSchema :=
  InputSchema.mk "object"
    [ ("location", PropSchema.mk "string" none none none none
        "The city name or coordinates (lat,lon)")
    , ("units", PropSchema.mk "string" (some ["metric", "imperial", "kelvin"])
        none none (some (Value.str "metric")) "Temperature units") ]
    ["location"]

/-- The inputSchema literal of the get_weather_forecast Tool
(weather.py lines 96-118). -/
def weatherForecastSchema : InputSchema :=
  InputSchema.mk "object"
    [ ("location", PropSchema.mk "string" none none none none
        "The city name or coordinates (lat,lon)")
    , ("days", PropSchema.mk "integer" none (some 1) (some 5)
        (some (Value.int 3)) "Number of forecast days")
    , ("units", PropSchema.mk "string" (some ["metric", "imperial", "kelvin"])
        none none (some (Value.str "metric")) "Temperature units") ]
    ["location"]

/-- Embeds handle_list_tools (weather.py lines 69-120): a constant
enumeration of the two tools, in registration order. -/
def handle_list_tools : Unit → List Tool := fun _ =>
  [ Tool.mk "get_current_weather"
      "Get current weather information for a specific location"
      currentWeatherSchema
  , Tool.mk "get_weather_forecast"
      "Get weather forecast for a specific location"
      weatherForecastSchema ]

/-- Embeds WeatherServer.get_current_weather (weather.py lines 143-174).
The mock data picks metric strings when `units == "metric"` and imperial
strings otherwise; the body never raises, so the function is total. -/
def get_current_weather (location : Value) (units : Value) : List TextContent :=
  let temperature := if units = Value.str "metric" then "22°C" else "72°F"
  let wind_speed := if units = Value.str "metric" then "10 km/h" else "6 mph"
  [TextContent.mk "text"
    ("Current Weather for " ++ location.render ++ ":\n🌡️ Temperature: "
      ++ temperature ++ "\n☁️ Conditions: Partly cloudy\n💧 Humidity: 65%\n💨 Wind Speed: "
      ++ wind_speed)]

/-- The per-day text appended by the loop body of
WeatherServer.get_weather_forecast (weather.py lines 183-194), for loop
index `i`. -/
def forecastDay (i : Nat) (units : Value) : String :=
  let temp_high : Int := if units = Value.str "metric" then 25 + i else 77 + i * 2
  let temp_low : Int := if units = Value.str "metric" then 15 + i else 59 + i * 2
  let temp_unit := if units = Value.str "metric" then "°C" else "°F"
  "📅 Day " ++ toString (i + 1) ++ ":\n   🌡️ High: " ++ toString temp_high
    ++ temp_unit ++ ", Low: " ++ toString temp_low ++ temp_unit
    ++ "\n   ☁️ Conditions: " ++ (if i % 2 = 0 then "Sunny" else "Cloudy")
    ++ "\n   🌧️ Precipitation: " ++ toString (10 + i * 5) ++ "%\n\n"

/-- Embeds WeatherServer.get_weather_forecast (weather.py lines 176-200).
With an integer `days` the loop `for i in range(days)` runs `days.toNat`
times (a non-positive count yields no iterations); with a string `days`,
`range(days)` raises TypeError, which the handler's own try/except catches,
returning the "Failed to fetch" text (weather.py lines 198-200). -/
def get_weather_forecast (location : Value) (days : Value) (units : Value) :
    List TextContent :=
  match days with
  | .int n =>
      let header := "Weather Forecast for " ++ location.render ++ " ("
        ++ toString n ++ " days):\n\n"
      [TextContent.mk "text"
        ((List.range n.toNat).foldl (fun acc i => acc ++ forecastDay i units) header)]
  | .str _ =>
      [TextContent.mk "text"
        "Failed to fetch forecast data: \x27str\x27 object cannot be interpreted as an integer"]

/-- A bound handler for a two-argument tool, as the dispatcher sees it: it
either returns content or fails with an exception rendered as a string. -/
def ToolHandler2 : Type := Value → Value → Except String (List TextContent)

/-- A bound handler for a three-argument tool. -/
def ToolHandler3 : Type := Value → Value → Value → Except String (List TextContent)

/-- The body of the try block of handle_call_tool (weather.py lines
125-138), with the two bound handlers abstracted.  Subscripting `arguments`
at "location" raises a KeyError when the key is absent — Python renders
that exception as the property name wrapped in single quotes — and an
unknown name raises a ValueError whose message is "Unknown tool: " followed
by the name; both are embedded as `Except.error` carrying the rendered
message.  Optional arguments are fetched with `arguments.get` and its
defaults, which never raises. -/
def callToolBody (hcw : ToolHandler2) (hwf : ToolHandler3)
    (name : String) (arguments : List (String × Value)) :
    Except String (List TextContent) :=
  if name = "get_current_weather" then
    match lookupArg arguments "location" with
    | none => .error "\x27location\x27"
    | some loc => hcw loc (getArg arguments "units" (Value.str "metric"))
  else if name = "get_weather_forecast" then
    match lookupArg arguments "location" with
    | none => .error "\x27location\x27"
    | some loc =>
        hwf loc (getArg arguments "days" (Value.int 3))
          (getArg arguments "units" (Value.str "metric"))
  else
    .error ("Unknown tool: " ++ name)

/-- Embeds handle_call_tool (weather.py lines 122-141) with the bound
handlers abstracted: the `except Exception` clause turns any failure of the
body into the normally-returned single text item `"Error: " ++ str(e)`. -/
def callToolDispatch (hcw : ToolHandler2) (hwf : ToolHandler3)
    (name : String) (arguments : List (String × Value)) : List TextContent :=
  match callToolBody hcw hwf name arguments with
  | .ok content => content
  | .error e => [TextContent.mk "text" ("Error: " ++ e)]

/-- A total handler never raises: its `Except` lift always returns `ok`. -/
def liftHandler2 (f : Value → Value → List TextContent) : ToolHandler2 :=
  fun a b => .ok (f a b)

/-- A total three-argument handler lifted into the dispatcher's view. -/
def liftHandler3 (f : Value → Value → Value → List TextContent) : ToolHandler3 :=
  fun a b c => .ok (f a b c)

/-- Embeds handle_call_tool with its actual bound handlers,
WeatherServer.get_current_weather and WeatherServer.get_weather_forecast
(both total: each wraps its whole body in try/except and returns text in
every branch). -/
def handle_call_tool (name : String) (arguments : List (String × Value)) :
    List TextContent :=
  callToolDispatch (liftHandler2 get_current_weather)
    (liftHandler3 get_weather_forecast) name arguments

/-- A protocol response for one request: either a result payload or a
protocol-level error carrying a message. -/
inductive Response (α : Type) where
  | result (value : α)
  | error (message : String)
deriving DecidableEq

/-- Modelled from the spec: the protocol layer (the `mcp` library's request
loop, which is not part of src/) wraps a handler's normal return value as a
result Response and a raised exception as an error Response carrying the
exception text ("handler failures are caught and converted to an error
Response, never propagated to crash the session"). -/
def toResponse {α : Type} : Except String α → Response α
  | .ok v => .result v
  | .error e => .error e

/-- The protocol response to `resources/read uri`: handle_read_resource's
returned text as a result, or its raised exception as an error Response. -/
def readResourceResponse (uri : String) : Response String :=
  toResponse (handle_read_resource uri)

/-- The protocol response to `tools/call` with abstract bound handlers:
handle_call_tool returns normally on every path (its try/except catches all
exceptions), so the protocol layer always emits a result Response. -/
def callToolResponseGen (hcw : ToolHandler2) (hwf : ToolHandler3)
    (name : String) (arguments : List (String × Value)) :
    Response (List TextContent) :=
  Response.result (callToolDispatch hcw hwf name arguments)

/-- The protocol response to `tools/call` with the actual bound handlers. -/
def callToolResponse (name : String) (arguments : List (String × Value)) :
    Response (List TextContent) :=
  Response.result (handle_call_tool name arguments)

/-- Embeds `mcp.types.ResourcesCapability`. -/
structure ResourcesCapability where
  subscribe : Bool
  listChanged : Bool
deriving DecidableEq

/-- Embeds `mcp.types.ToolsCapability`. -/
structure ToolsCapability where
  listChanged : Bool
deriving DecidableEq

/-- Embeds `mcp.types.ServerCapabilities` with the two capability groups
populated by WeatherServer.run; a populated group means the capability is
enabled/advertised. -/
structure ServerCapabilities where
  resources : ResourcesCapability
  tools : ToolsCapability
deriving DecidableEq

/-- Embeds `mcp.server.models.InitializationOptions`. -/
structure InitializationOptions where
  server_name : String
  server_version : String
  capabilities : ServerCapabilities
deriving DecidableEq

/-- The InitializationOptions literal passed to self.server.run by
WeatherServer.run (weather.py lines 208-215); it is a constant, fixed for
the whole session. -/
def initializationOptions : InitializationOptions :=
  InitializationOptions.mk "weather-server" "1.0.0"
    (ServerCapabilities.mk (ResourcesCapability.mk false false)
      (ToolsCapability.mk false))

/-- Looking an argument up past an entry with a different key is looking it
up in the rest of the mapping. -/
theorem lookupArg_cons_ne (k key : String) (v : Value)
    (args : List (String × Value)) (h : k ≠ key) :
    lookupArg ((k, v) :: args) key = lookupArg args key := by
  simp [lookupArg, h]

/-- An entry just added is found first by `arguments.get`. -/
theorem getArg_cons_self (k : String) (v d : Value) (args : List (String × Value)) :
    getArg ((k, v) :: args) k d = v := by
  simp [getArg, lookupArg]

/-- `arguments.get` behind an entry with a different key reads the rest of
the mapping. -/
theorem getArg_cons_ne (k key : String) (v d : Value)
    (args : List (String × Value)) (h : k ≠ key) :
    getArg ((k, v) :: args) key d = getArg args key d := by
  simp [getArg, lookupArg_cons_ne k key v args h]

/-- `arguments.get` of an absent key yields the supplied default. -/
theorem getArg_of_none (key : String) (d : Value) (args : List (String × Value))
    (h : lookupArg args key = none) : getArg args key d = d := by
  simp [getArg, h]

/-- Every path of handle_call_tool returns a single content item whose type
field is "text": the two bound handlers each return such a singleton in all
of their branches, and the except clause does as well. -/
theorem handle_call_tool_types (name : String) (args : List (String × Value)) :
    (handle_call_tool name args).map TextContent.type = ["text"] := by
  by_cases h1 : name = "get_current_weather"
  · subst h1
    cases hl : lookupArg args "location" with
    | none =>
        simp [handle_call_tool, callToolDispatch, callToolBody, hl]
    | some loc =>
        simp [handle_call_tool, callToolDispatch, callToolBody, hl, liftHandler2,
          get_current_weather]
  · by_cases h2 : name = "get_weather_forecast"
    · subst h2
      cases hl : lookupArg args "location" with
      | none =>
          simp [handle_call_tool, callToolDispatch, callToolBody, hl, h1]
      | some loc =>
          cases hd : getArg args "days" (Value.int 3) with
          | int n =>
              simp [handle_call_tool, callToolDispatch, callToolBody, hl, h1, hd,
                liftHandler3, get_weather_forecast]
          | str s =>
              simp [handle_call_tool, callToolDispatch, callToolBody, hl, h1, hd,
                liftHandler3, get_weather_forecast]
    · simp [handle_call_tool, callToolDispatch, callToolBody, h1, h2]

/-- Claim C1, counterexample: calling the unregistered tool name "missing"
does not produce a NotFound protocol error; the dispatcher returns a
successful result Response whose single text item is the error text. -/
theorem C1_counterexample :
    callToolResponse "missing" [] =
      Response.result [TextContent.mk "text" "Error: Unknown tool: missing"] := by
  decide

/-- Claim C1, amended: for every tool name other than the two registered
ones, tools/call produces a successful result Response whose single text
item is "Error: Unknown tool: " followed by the name, and no tool handler
is invoked (the response is the same for every choice of bound handlers). -/
theorem C1_unknown_tool_response (hcw : ToolHandler2) (hwf : ToolHandler3)
    (name : String) (args : List (String × Value))
    (h1 : name ≠ "get_current_weather") (h2 : name ≠ "get_weather_forecast") :
    callToolResponseGen hcw hwf name args =
      Response.result [TextContent.mk "text" ("Error: " ++ ("Unknown tool: " ++ name))] := by
  simp [callToolResponseGen, callToolDispatch, callToolBody, h1, h2]

/-- Witness for C1 at the concrete unregistered name "echo". -/
theorem C1_witness :
    callToolResponseGen (liftHandler2 get_current_weather)
      (liftHandler3 get_weather_forecast) "echo" [] =
      Response.result [TextContent.mk "text" ("Error: " ++ ("Unknown tool: " ++ "echo"))] :=
  C1_unknown_tool_response (liftHandler2 get_current_weather)
    (liftHandler3 get_weather_forecast) "echo" [] (by decide) (by decide)

/-- Claim C2, counterexample: calling get_current_weather with the required
property "location" omitted does not produce an InvalidArguments protocol
error; the dispatcher returns a successful result Response whose single
text item renders the KeyError. -/
theorem C2_counterexample :
    callToolResponse "get_current_weather" [] =
      Response.result [TextContent.mk "text" "Error: \x27location\x27"] := by
  decide

/-- Claim C2, amended: both registered tools declare "location" required;
calling either with arguments lacking "location" yields a successful result
Response whose single text item is "Error: " followed by the quoted
property name, and the bound handler is not invoked (the response is the
same for every choice of bound handlers). -/
theorem C2_missing_required_response (hcw : ToolHandler2) (hwf : ToolHandler3)
    (args : List (String × Value)) (h : lookupArg args "location" = none) :
    ("location" ∈ currentWeatherSchema.required ∧
      "location" ∈ weatherForecastSchema.required) ∧
    callToolResponseGen hcw hwf "get_current_weather" args =
      Response.result [TextContent.mk "text" "Error: \x27location\x27"] ∧
    callToolResponseGen hcw hwf "get_weather_forecast" args =
      Response.result [TextContent.mk "text" "Error: \x27location\x27"] := by
  have hne : ("get_weather_forecast" : String) ≠ "get_current_weather" := by decide
  refine ⟨⟨by decide, by decide⟩, ?_, ?_⟩
  · simp [callToolResponseGen, callToolDispatch, callToolBody, h]
  · simp [callToolResponseGen, callToolDispatch, callToolBody, h, hne]

/-- Witness for C2: arguments carrying only "units" still lack "location". -/
theorem C2_witness :
    callToolResponseGen (liftHandler2 get_current_weather)
      (liftHandler3 get_weather_forecast) "get_current_weather"
      [("units", Value.str "metric")] =
      Response.result [TextContent.mk "text" "Error: \x27location\x27"] :=
  ((C2_missing_required_response (liftHandler2 get_current_weather)
    (liftHandler3 get_weather_forecast) [("units", Value.str "metric")]
    (by decide)).2).1

/-- Claim C3: a tools/call of a registered tool whose bound handler raises
produces a successful result Response (not a protocol error) whose text
contains the failure description, for either registered tool; by contrast a
resource-read handler failure becomes an error Response. -/
theorem C3_handler_failure_asymmetry (hcw : ToolHandler2) (hwf : ToolHandler3)
    (args : List (String × Value)) (loc : Value) (e : String) :
    (lookupArg args "location" = some loc →
      hcw loc (getArg args "units" (Value.str "metric")) = Except.error e →
      callToolResponseGen hcw hwf "get_current_weather" args =
        Response.result [TextContent.mk "text" ("Error: " ++ e)]) ∧
    (lookupArg args "location" = some loc →
      hwf loc (getArg args "days" (Value.int 3))
          (getArg args "units" (Value.str "metric")) = Except.error e →
      callToolResponseGen hcw hwf "get_weather_forecast" args =
        Response.result [TextContent.mk "text" ("Error: " ++ e)]) ∧
    (∀ uri : String, handle_read_resource uri = Except.error e →
      readResourceResponse uri = Response.error e) := by
  have hne : ("get_weather_forecast" : String) ≠ "get_current_weather" := by decide
  refine ⟨fun hl he => ?_, fun hl he => ?_, fun uri he => ?_⟩
  · simp [callToolResponseGen, callToolDispatch, callToolBody, hl, he]
  · simp [callToolResponseGen, callToolDispatch, callToolBody, hl, he, hne]
  · simp [readResourceResponse, toResponse, he]

/-- Witness for C3: a handler that raises "boom" on a valid call yields a
result Response with the error text, for both registered tools, while the
resource-read handler raising on an unregistered uri yields an error
Response. -/
theorem C3_witness :
    callToolResponseGen (fun _ _ => Except.error "boom")
      (liftHandler3 get_weather_forecast) "get_current_weather"
      [("location", Value.str "SF")] =
      Response.result [TextContent.mk "text" ("Error: " ++ "boom")] ∧
    callToolResponseGen (liftHandler2 get_current_weather)
      (fun _ _ _ => Except.error "boom") "get_weather_forecast"
      [("location", Value.str "SF")] =
      Response.result [TextContent.mk "text" ("Error: " ++ "boom")] ∧
    readResourceResponse "weather://other" =
      Response.error "Unknown resource: weather://other" :=
  ⟨(C3_handler_failure_asymmetry (fun _ _ => Except.error "boom")
      (liftHandler3 get_weather_forecast) [("location", Value.str "SF")]
      (Value.str "SF") "boom").1 (by decide) rfl,
   (C3_handler_failure_asymmetry (liftHandler2 get_current_weather)
      (fun _ _ _ => Except.error "boom") [("location", Value.str "SF")]
      (Value.str "SF") "boom").2.1 (by decide) rfl,
   (C3_handler_failure_asymmetry (liftHandler2 get_current_weather)
      (liftHandler3 get_weather_forecast) [] (Value.str "SF")
      "Unknown resource: weather://other").2.2 "weather://other" rfl⟩

/-- Claim C4: resources/read of any uri other than the two registered ones
is an error Response naming the unknown resource; reading a registered uri
returns the read handler result text as a result Response; a handler
failure becomes an error Response rather than terminating the session
(reading is total: it always produces some Response). -/
theorem C4_read_resource (uri : String) :
    (uri ≠ "weather://current" → uri ≠ "weather://forecast" →
      readResourceResponse uri = Response.error ("Unknown resource: " ++ uri)) ∧
    readResourceResponse "weather://current" =
      Response.result "Current weather data resource - use get_current_weather tool" ∧
    readResourceResponse "weather://forecast" =
      Response.result "Weather forecast data resource - use get_weather_forecast tool" := by
  refine ⟨fun h1 h2 => ?_, by decide, by decide⟩
  simp [readResourceResponse, handle_read_resource, toResponse, h1, h2]

/-- Witness for C4 at the concrete unregistered uri. -/
theorem C4_witness :
    readResourceResponse "weather://nope" =
      Response.error ("Unknown resource: " ++ "weather://nope") :=
  (C4_read_resource "weather://nope").1 (by decide) (by decide)

/-- Claim C5, counterexample: calling get_weather_forecast with days equal
to 6 — above the declared maximum 5 in its inputSchema — does not produce
an InvalidArguments error: the handler is invoked and its six-day forecast
is returned as a successful result Response. -/
theorem C5_counterexample :
    List.lookup "days" weatherForecastSchema.properties =
      some (PropSchema.mk "integer" none (some 1) (some 5) (some (Value.int 3))
        "Number of forecast days") ∧
    callToolResponse "get_weather_forecast"
      [("location", Value.str "X"), ("days", Value.int 6)] =
      Response.result
        (get_weather_forecast (Value.str "X") (Value.int 6) (Value.str "metric")) := by
  exact ⟨by decide, rfl⟩

/-- Claim C5, amended: the dispatcher performs no schema validation of
present property values: whenever "location" is present it invokes the
bound handler with the raw values of "location", "days" and "units"
regardless of the declared minimum/maximum/enum constraints, and wraps the
handler outcome as usual; unknown extra properties are permitted and
ignored (they do not change the dispatch result, for any tool name and any
bound handlers). -/
theorem C5_no_validation :
    (∀ (hcw : ToolHandler2) (hwf : ToolHandler3) (args : List (String × Value))
        (loc : Value), lookupArg args "location" = some loc →
      callToolDispatch hcw hwf "get_current_weather" args =
        (match hcw loc (getArg args "units" (Value.str "metric")) with
          | .ok content => content
          | .error e => [TextContent.mk "text" ("Error: " ++ e)])) ∧
    (∀ (hcw : ToolHandler2) (hwf : ToolHandler3) (args : List (String × Value))
        (loc : Value), lookupArg args "location" = some loc →
      callToolDispatch hcw hwf "get_weather_forecast" args =
        (match hwf loc (getArg args "days" (Value.int 3))
            (getArg args "units" (Value.str "metric")) with
          | .ok content => content
          | .error e => [TextContent.mk "text" ("Error: " ++ e)])) ∧
    (∀ (hcw : ToolHandler2) (hwf : ToolHandler3) (name k : String) (v : Value)
        (args : List (String × Value)),
      k ≠ "location" → k ≠ "days" → k ≠ "units" →
      callToolDispatch hcw hwf name ((k, v) :: args) =
        callToolDispatch hcw hwf name args) := by
  have hne : ("get_weather_forecast" : String) ≠ "get_current_weather" := by decide
  refine ⟨fun hcw hwf args loc hl => ?_, fun hcw hwf args loc hl => ?_,
    fun hcw hwf name k v args h1 h2 h3 => ?_⟩
  · simp [callToolDispatch, callToolBody, hl]
  · simp [callToolDispatch, callToolBody, hl, hne]
  · simp [callToolDispatch, callToolBody, lookupArg_cons_ne k "location" v args h1,
      getArg_cons_ne k "days" v (Value.int 3) args h2,
      getArg_cons_ne k "units" v (Value.str "metric") args h3]

/-- Witness for C5: the out-of-range days value 6 reaches the handler, and
an unknown extra property does not change the result. -/
theorem C5_witness :
    callToolDispatch (liftHandler2 get_current_weather)
      (liftHandler3 get_weather_forecast) "get_weather_forecast"
      [("location", Value.str "X"), ("days", Value.int 6)] =
      get_weather_forecast (Value.str "X") (Value.int 6) (Value.str "metric") ∧
    callToolDispatch (liftHandler2 get_current_weather)
      (liftHandler3 get_weather_forecast) "get_weather_forecast"
      [("extra", Value.int 1), ("location", Value.str "X")] =
      callToolDispatch (liftHandler2 get_current_weather)
        (liftHandler3 get_weather_forecast) "get_weather_forecast"
        [("location", Value.str "X")] :=
  ⟨(C5_no_validation.2.1 (liftHandler2 get_current_weather)
      (liftHandler3 get_weather_forecast)
      [("location", Value.str "X"), ("days", Value.int 6)] (Value.str "X")
      (by decide)),
   C5_no_validation.2.2 (liftHandler2 get_current_weather)
      (liftHandler3 get_weather_forecast) "get_weather_forecast" "extra"
      (Value.int 1) [("location", Value.str "X")]
      (by decide) (by decide) (by decide)⟩

/-- Claim C6: list_tools and list_resources take no input and touch no
state, so any sequence of calls with no intervening mutation returns
identical results; the enumerations are exactly the two tools and the two
resources, in registration order. -/
theorem C6_list_idempotent :
    (handle_list_tools ()).map Tool.name =
      ["get_current_weather", "get_weather_forecast"] ∧
    (handle_list_resources ()).map Resource.uri =
      ["weather://current", "weather://forecast"] ∧
    ∀ n : Nat,
      (List.replicate n ()).map handle_list_tools =
        List.replicate n (handle_list_tools ()) ∧
      (List.replicate n ()).map handle_list_resources =
        List.replicate n (handle_list_resources ()) := by
  refine ⟨rfl, rfl, fun n => ⟨?_, ?_⟩⟩ <;> rw [List.map_replicate]

/-- Claim C7: the schemas declare default "metric" for units on both tools
and default 3 for days on get_weather_forecast, and a valid call omitting
an optional property returns exactly what the same call with the declared
default passed explicitly returns. -/
theorem C7_defaults_applied (args : List (String × Value)) (loc : Value) :
    ((List.lookup "units" currentWeatherSchema.properties).map PropSchema.default =
        some (some (Value.str "metric")) ∧
      (List.lookup "units" weatherForecastSchema.properties).map PropSchema.default =
        some (some (Value.str "metric")) ∧
      (List.lookup "days" weatherForecastSchema.properties).map PropSchema.default =
        some (some (Value.int 3))) ∧
    (lookupArg args "location" = some loc → lookupArg args "units" = none →
      handle_call_tool "get_current_weather" args =
        handle_call_tool "get_current_weather" (("units", Value.str "metric") :: args)) ∧
    (lookupArg args "location" = some loc → lookupArg args "units" = none →
      handle_call_tool "get_weather_forecast" args =
        handle_call_tool "get_weather_forecast" (("units", Value.str "metric") :: args)) ∧
    (lookupArg args "location" = some loc → lookupArg args "days" = none →
      handle_call_tool "get_weather_forecast" args =
        handle_call_tool "get_weather_forecast" (("days", Value.int 3) :: args)) := by
  have hne : ("get_weather_forecast" : String) ≠ "get_current_weather" := by decide
  refine ⟨⟨by decide, by decide, by decide⟩, fun hl hu => ?_, fun hl hu => ?_,
    fun hl hd => ?_⟩
  · have e1 : lookupArg (("units", Value.str "metric") :: args) "location" = some loc := by
      rw [lookupArg_cons_ne _ _ _ _ (by decide)]; exact hl
    have e2 : getArg args "units" (Value.str "metric") = Value.str "metric" :=
      getArg_of_none _ _ _ hu
    have e3 : getArg (("units", Value.str "metric") :: args) "units"
        (Value.str "metric") = Value.str "metric" := getArg_cons_self _ _ _ _
    simp [handle_call_tool, callToolDispatch, callToolBody, hl, e1, e2, e3]
  · have e1 : lookupArg (("units", Value.str "metric") :: args) "location" = some loc := by
      rw [lookupArg_cons_ne _ _ _ _ (by decide)]; exact hl
    have e2 : getArg args "units" (Value.str "metric") = Value.str "metric" :=
      getArg_of_none _ _ _ hu
    have e3 : getArg (("units", Value.str "metric") :: args) "units"
        (Value.str "metric") = Value.str "metric" := getArg_cons_self _ _ _ _
    have e4 : getArg (("units", Value.str "metric") :: args) "days" (Value.int 3) =
        getArg args "days" (Value.int 3) := getArg_cons_ne _ _ _ _ _ (by decide)
    simp [handle_call_tool, callToolDispatch, callToolBody, hne, hl, e1, e2, e3, e4]
  · have e1 : lookupArg (("days", Value.int 3) :: args) "location" = some loc := by
      rw [lookupArg_cons_ne _ _ _ _ (by decide)]; exact hl
    have e2 : getArg args "days" (Value.int 3) = Value.int 3 :=
      getArg_of_none _ _ _ hd
    have e3 : getArg (("days", Value.int 3) :: args) "days" (Value.int 3) =
        Value.int 3 := getArg_cons_self _ _ _ _
    have e4 : getArg (("days", Value.int 3) :: args) "units" (Value.str "metric") =
        getArg args "units" (Value.str "metric") := getArg_cons_ne _ _ _ _ _ (by decide)
    simp [handle_call_tool, callToolDispatch, callToolBody, hne, hl, e1, e2, e3, e4]

/-- Witness for C7 on a call carrying only the required "location". -/
theorem C7_witness :
    handle_call_tool "get_current_weather" [("location", Value.str "Paris")] =
      handle_call_tool "get_current_weather"
        [("units", Value.str "metric"), ("location", Value.str "Paris")] ∧
    handle_call_tool "get_weather_forecast" [("location", Value.str "Paris")] =
      handle_call_tool "get_weather_forecast"
        [("days", Value.int 3), ("location", Value.str "Paris")] :=
  ⟨(C7_defaults_applied [("location", Value.str "Paris")] (Value.str "Paris")).2.1
      (by decide) (by decide),
   (C7_defaults_applied [("location", Value.str "Paris")] (Value.str "Paris")).2.2.2
      (by decide) (by decide)⟩

/-- Claim C8: the initialization options advertise the server identity
"weather-server", version "1.0.0", and the fixed capability set with tools
and resources enabled and every change-notification capability disabled;
the value is a constant of the program, fixed for the whole session. -/
theorem C8_capabilities :
    initializationOptions.server_name = "weather-server" ∧
    initializationOptions.server_version = "1.0.0" ∧
    initializationOptions.capabilities.tools.listChanged = false ∧
    initializationOptions.capabilities.resources.listChanged = false ∧
    initializationOptions.capabilities.resources.subscribe = false :=
  ⟨rfl, rfl, rfl, rfl, rfl⟩

/-- Claim C9: the tool-call handler is total — for every name, arguments
and bound handlers it produces a result Response (never a protocol error
or an escaping exception) — its output with the actual bound handlers is
always a single item of type "text", and whenever the try-block body fails
with exception text e the returned list is the single text item
"Error: " followed by e. -/
theorem C9_total_error_text (hcw : ToolHandler2) (hwf : ToolHandler3)
    (name : String) (args : List (String × Value)) (e : String) :
    (∃ content, callToolResponseGen hcw hwf name args = Response.result content) ∧
    (callToolBody hcw hwf name args = Except.error e →
      callToolDispatch hcw hwf name args =
        [TextContent.mk "text" ("Error: " ++ e)]) ∧
    (handle_call_tool name args).map TextContent.type = ["text"] :=
  ⟨⟨callToolDispatch hcw hwf name args, rfl⟩,
   fun he => by simp [callToolDispatch, he],
   handle_call_tool_types name args⟩

/-- Witness for C9 at an unknown tool name. -/
theorem C9_witness :
    callToolDispatch (liftHandler2 get_current_weather)
      (liftHandler3 get_weather_forecast) "nope" [] =
      [TextContent.mk "text" ("Error: " ++ "Unknown tool: nope")] :=
  (C9_total_error_text (liftHandler2 get_current_weather)
    (liftHandler3 get_weather_forecast) "nope" [] "Unknown tool: nope").2.1 rfl

/-- For a non-"metric" units value the forecast loop body renders the
imperial temperatures with the "°F" unit. -/
theorem forecastDay_of_ne_metric (i : Nat) (u : Value)
    (h : u ≠ Value.str "metric") :
    forecastDay i u =
      "📅 Day " ++ toString (i + 1) ++ ":\n   🌡️ High: "
        ++ toString ((77 : Int) + i * 2) ++ "°F" ++ ", Low: "
        ++ toString ((59 : Int) + i * 2) ++ "°F" ++ "\n   ☁️ Conditions: "
        ++ (if i % 2 = 0 then "Sunny" else "Cloudy")
        ++ "\n   🌧️ Precipitation: " ++ toString (10 + i * 5) ++ "%\n\n" := by
  simp [forecastDay, h]

/-- Claim C10: both weather handlers render only two unit systems — for
every units value other than exactly the string "metric" (the enum value
"kelvin" included) get_current_weather reports 72°F and 6 mph, both
handlers produce exactly the output of units "imperial", and every
forecast day renders its temperatures with "°F"; no Kelvin rendering
exists. -/
theorem C10_two_unit_systems (loc : Value) (n : Int) (u : Value)
    (h : u ≠ Value.str "metric") :
    get_current_weather loc u =
      [TextContent.mk "text"
        ("Current Weather for " ++ loc.render ++ ":\n🌡️ Temperature: "
          ++ "72°F" ++ "\n☁️ Conditions: Partly cloudy\n💧 Humidity: 65%\n💨 Wind Speed: "
          ++ "6 mph")] ∧
    get_current_weather loc u = get_current_weather loc (Value.str "imperial") ∧
    (∀ i : Nat, forecastDay i u = forecastDay i (Value.str "imperial")) ∧
    get_weather_forecast loc (Value.int n) u =
      get_weather_forecast loc (Value.int n) (Value.str "imperial") := by
  have himp : Value.str "imperial" ≠ Value.str "metric" := by decide
  have hfd : ∀ i : Nat, forecastDay i u = forecastDay i (Value.str "imperial") :=
    fun i => by
      rw [forecastDay_of_ne_metric i u h, forecastDay_of_ne_metric i _ himp]
  refine ⟨by simp [get_current_weather, h], ?_, hfd, ?_⟩
  · simp [get_current_weather, h, himp]
  · simp only [get_weather_forecast]
    refine congrArg (fun t => [TextContent.mk "text" t]) ?_
    exact List.foldl_ext _ _ _ fun acc i _ => by rw [hfd i]

/-- Witness for C10 at the enum value "kelvin", which renders imperially. -/
theorem C10_witness :
    get_current_weather (Value.str "Tokyo") (Value.str "kelvin") =
      [TextContent.mk "text"
        ("Current Weather for " ++ (Value.str "Tokyo").render
          ++ ":\n🌡️ Temperature: " ++ "72°F"
          ++ "\n☁️ Conditions: Partly cloudy\n💧 Humidity: 65%\n💨 Wind Speed: "
          ++ "6 mph")] :=
  (C10_two_unit_systems (Value.str "Tokyo") 1 (Value.str "kelvin") (by decide)).1

end Weather
